import Mathlib

/-!
Shallow embedding of the `gsiatras/stripe_api` repository (files `app.py`,
`utils.py`, `models.py`) and proofs about its checkout and webhook flows.

The repository is a FastAPI shim over the Stripe client.  The embedding
models:
  * Python `float` values as dyadic rationals `m * 2 ^ e` (the exact value
    of an IEEE-754 binary64 number), with arithmetic rounded to 53
    significant bits, nearest, ties to even — the binary64 semantics on the
    normal finite range, which covers every currency amount in scope;
  * the Stripe provider as an explicit state: the prices that exist for
    each product in provider listing order (newest first, as Stripe lists
    by creation date descending), a counter for fresh price ids, the
    sessions created so far, and injectable provider errors;
  * each HTTP handler as a pure function from request and provider state to
    a response and a new provider state.
-/

namespace StripeApi

/-! ## IEEE-754 binary64 model (Python `float`)

All arithmetic is on integers so that every concrete computation reduces by
`decide`. -/

/-- Fuel-bounded base-2 logarithm: `natLog2Aux f n` is the floor of
`log2 n` whenever `n < 2 ^ f` (and `1 ≤ n`). -/
def natLog2Aux : ℕ → ℕ → ℕ
  | 0, _ => 0
  | f + 1, n => if n ≤ 1 then 0 else natLog2Aux f (n / 2) + 1

/-- Floor of `log2 n` for the magnitudes this service can encounter
(`n < 2 ^ 4096`, far beyond any currency amount). -/
def natLog2 (n : ℕ) : ℕ := natLog2Aux 4096 n

/-- Round the nonnegative fraction `p / q` to the nearest natural number,
ties to even. -/
def roundHalfEven (p q : ℕ) : ℕ :=
  let n := p / q
  let r := p % q
  if 2 * r < q then n
  else if q < 2 * r then n + 1
  else if n % 2 = 0 then n else n + 1

/-- Decide whether `a / b < 2 ^ e` for naturals `a`, `b > 0` and an integer
exponent `e`. -/
def ltPow2 (a b : ℕ) (e : ℤ) : Bool :=
  if 0 ≤ e then a < b * 2 ^ e.toNat else a * 2 ^ (-e).toNat < b

/-- Binade of the positive fraction `a / b`: the exponent `e` with
`2 ^ e ≤ a / b < 2 ^ (e + 1)`.  The first guess from the bit lengths of
`a` and `b` is off by at most one and is corrected by comparison. -/
def binadeExp (a b : ℕ) : ℤ :=
  let e0 : ℤ := (natLog2 a : ℤ) - (natLog2 b : ℤ)
  if ltPow2 a b (e0 - 1) then e0 - 2
  else if ltPow2 a b e0 then e0 - 1
  else if ltPow2 a b (e0 + 1) then e0
  else e0 + 1

/-- Dyadic rational `m * 2 ^ e`: the exact value of a binary64 float. -/
structure Dyadic where
  m : ℤ
  e : ℤ
deriving DecidableEq

/-- Round the positive fraction `a / b` (both positive) to 53 significant
bits, nearest, ties to even: the binary64 rounding on the normal range. -/
def fl64Pos (a b : ℕ) : Dyadic :=
  let u : ℤ := binadeExp a b - 52
  let n : ℕ :=
    if 0 ≤ u then roundHalfEven a (b * 2 ^ u.toNat)
    else roundHalfEven (a * 2 ^ (-u).toNat) b
  ⟨(n : ℤ), u⟩

/-- Binary64 value nearest to the rational `a / b` (with `b > 0`), as a
dyadic rational; the model of rounding a real result into a Python
`float`.  Restricted to the normal finite range (no subnormals, infinities
or NaN), which covers every currency amount this service handles. -/
def fl64Frac (a b : ℤ) : Dyadic :=
  if a = 0 then ⟨0, 0⟩
  else if a < 0 then
    let d := fl64Pos a.natAbs b.natAbs
    ⟨-d.m, d.e⟩
  else fl64Pos a.natAbs b.natAbs

/-- Value of a decimal source literal `a / b` once parsed into a Python
float; for example the request price `19.99` is `pyFloat 1999 100`. -/
def pyFloat (a b : ℤ) : Dyadic := fl64Frac a b

/-- Python float multiplication: the exact product, rounded back to
binary64. -/
def floatMul (x y : Dyadic) : Dyadic :=
  let m := x.m * y.m
  let e := x.e + y.e
  if 0 ≤ e then fl64Frac (m * ((2 ^ e.toNat : ℕ) : ℤ)) 1
  else fl64Frac m ((2 ^ (-e).toNat : ℕ) : ℤ)

/-- Python `int()` applied to a float value: truncation toward zero. -/
def pyIntOfFloat (x : Dyadic) : ℤ :=
  if 0 ≤ x.e then x.m * ((2 ^ x.e.toNat : ℕ) : ℤ)
  else x.m.tdiv ((2 ^ (-x.e).toNat : ℕ) : ℤ)

/-- Python integer `100` promoted to a float in `request.price * 100`;
exactly representable. -/
def float100 : Dyadic := ⟨100, 0⟩

/-- Line 43 of `app.py`: `amount_in_cents = int(request.price * 100)`. -/
def amount_in_cents (price : Dyadic) : ℤ := pyIntOfFloat (floatMul price float100)

example : pyFloat 1999 100 = ⟨5626684784446013, -48⟩ := by decide
example : amount_in_cents (pyFloat 1999 100) = 1998 := by decide
example : amount_in_cents (pyFloat 10 1) = 1000 := by decide

/-! ## The Stripe provider model

The provider is modelled as an explicit state.  Prices are listed newest
first (Stripe lists by creation date descending), so a freshly created
price is prepended.  The `listFail`, `createFail` and `sessionFail` fields
inject a `stripe.error.StripeError` (with the given user message) into the
corresponding provider call, so that the handler error paths can be
exercised. -/

/-- Price resource owned by the provider (`unit_amount` in minor currency
units). -/
structure StripePrice where
  id : String
  unit_amount : ℤ
  currency : String
  product : String
deriving DecidableEq

/-- Parameters of `stripe.checkout.Session.create` as called on lines
54-69 of `app.py`.  `line_items` pairs a price id with a quantity;
`metadata_user_email` is the `user_email` entry of the metadata dict. -/
structure SessionParams where
  payment_method_types : List String
  line_items : List (String × ℕ)
  mode : String
  customer_email : String
  success_url : String
  cancel_url : String
  metadata_user_email : String
deriving DecidableEq

/-- Provider state. -/
structure StripeState where
  prices : List StripePrice
  nextPriceNum : ℕ
  listFail : Option String
  createFail : Option String
  sessionFail : Option String
  sessionUrl : String
  sessionsCreated : List SessionParams
deriving DecidableEq

/-- Python-level exceptions this service distinguishes:
`stripe.error.StripeError` (carrying `user_message`) and `ValueError`
(carrying its message). -/
inductive PyError where
  | stripeError (user_message : String)
  | valueError (msg : String)
deriving DecidableEq

/-- The id of the `n`-th price the provider mints. -/
def freshPriceId (n : ℕ) : String := "price_" ++ toString n

/-- Model of `stripe.Price.list(product=..., limit=...)`: the prices of the
product, in listing order, at most `limit` of them. -/
def Price_list (st : StripeState) (product : String) (limit : ℕ) :
    Except PyError (List StripePrice) :=
  match st.listFail with
  | some m => .error (.stripeError m)
  | none => .ok ((st.prices.filter (fun p => p.product == product)).take limit)

/-- Model of `stripe.Price.create(unit_amount=..., currency=...,
product=...)`: mints a fresh price, which being newest is listed first
from then on. -/
def Price_create (st : StripeState) (unit_amount : ℤ) (currency : String)
    (product : String) : Except PyError (StripePrice × StripeState) :=
  match st.createFail with
  | some m => .error (.stripeError m)
  | none =>
    let p : StripePrice := ⟨freshPriceId st.nextPriceNum, unit_amount, currency, product⟩
    .ok (p, { st with prices := p :: st.prices, nextPriceNum := st.nextPriceNum + 1 })

/-- Model of `stripe.checkout.Session.create`: returns the session url and
records the parameters the provider was called with. -/
def Session_create (st : StripeState) (params : SessionParams) :
    Except PyError (String × StripeState) :=
  match st.sessionFail with
  | some m => .error (.stripeError m)
  | none => .ok (st.sessionUrl, { st with sessionsCreated := st.sessionsCreated ++ [params] })

/-! ## utils.py -/

/-- Lines 3-11 of `utils.py`: list up to 100 prices of the product and
return the id of the first one whose `unit_amount` and `currency` match,
else `None`.  The `currency` parameter defaults to `"eur"` in the source;
call sites pass the default explicitly here. -/
def get_existing_price (st : StripeState) (product_id : String) (amount : ℤ)
    (currency : String) : Except PyError (Option String) :=
  match Price_list st product_id 100 with
  | .error e => .error e
  | .ok prices =>
      .ok ((prices.find? (fun price =>
        price.unit_amount == amount && price.currency == currency)).map (fun price => price.id))

/-- Lines 14-20 of `utils.py`: create a price for the product and return
its id (currency again defaults to `"eur"` in the source). -/
def create_new_price (st : StripeState) (product_id : String) (amount : ℤ)
    (currency : String) : Except PyError (String × StripeState) :=
  match Price_create st amount currency product_id with
  | .error e => .error e
  | .ok (custom_price, st2) => .ok (custom_price.id, st2)

/-! ## app.py -/

/-- Line 3-6 of `models.py`: the request schema.  `price` is a Python
float (default `1`, i.e. `pyFloat 1 1`). -/
structure SubscriptionRequest where
  subscription_type : String
  user_email : String
  price : Dyadic
deriving DecidableEq

/-- Environment-sourced configuration of `app.py` (lines 14-15): the
standard-subscription price id and the custom product id. -/
structure Config where
  standard_price_id : String
  custom_sub_id : String
deriving DecidableEq

/-- Line 18 of `app.py`. -/
def DOMAIN : String := "http://localhost:8000"

/-- Checkout endpoint outcome: the success payload with the session url, or
an `HTTPException` with status and detail. -/
inductive CheckoutResponse where
  | ok (url : String)
  | httpError (status : ℕ) (detail : String)
deriving DecidableEq

/-- Lines 72-75 of `app.py`: how an exception in the checkout path is
turned into an `HTTPException` detail string. -/
def errorDetail : PyError → String
  | .stripeError m => "Stripe error: " ++ m
  | .valueError m => "An error occurred: " ++ m

/-- Python truthiness of `price_id` on line 46 of `app.py` (`if not
price_id`): `None` and the empty string are falsy. -/
def pyStrOptTruthy : Option String → Bool
  | none => false
  | some s => !s.isEmpty

/-- Lines 39-51 of `app.py`: resolve the price id and session mode from the
request, possibly creating a price.  Errors carry the provider state at
the point of failure. -/
def resolvePrice (cfg : Config) (st : StripeState) (req : SubscriptionRequest) :
    Except (PyError × StripeState) (String × String × StripeState) :=
  if req.subscription_type == "standard" then
    .ok (cfg.standard_price_id, "subscription", st)
  else if req.subscription_type == "custom" then
    match get_existing_price st cfg.custom_sub_id (amount_in_cents req.price) "eur" with
    | .error e => .error (e, st)
    | .ok opid =>
      if pyStrOptTruthy opid then .ok (opid.getD "", "payment", st)
      else
        match create_new_price st cfg.custom_sub_id (amount_in_cents req.price) "eur" with
        | .error e => .error (e, st)
        | .ok (price_id, st2) => .ok (price_id, "payment", st2)
  else
    .error (.valueError "Invalid subscription type. Must be \x27standard\x27 or \x27custom\x27.", st)

/-- The session parameters `app.py` lines 54-69 build from the request and
the resolved price id and mode. -/
def sessionParamsFor (req : SubscriptionRequest) (price_id : String) (sub_mode : String) :
    SessionParams :=
  ⟨["card"], [(price_id, 1)], sub_mode, req.user_email,
    DOMAIN ++ "/success.html", DOMAIN ++ "/cancel.html", req.user_email⟩

/-- Lines 20-75 of `app.py`: the `POST /create-subscription` handler. -/
def create_subscription_session (cfg : Config) (st : StripeState)
    (req : SubscriptionRequest) : CheckoutResponse × StripeState :=
  match resolvePrice cfg st req with
  | .error (e, st2) => (.httpError 400 (errorDetail e), st2)
  | .ok (price_id, sub_mode, st2) =>
    match Session_create st2 (sessionParamsFor req price_id sub_mode) with
    | .error e => (.httpError 400 (errorDetail e), st2)
    | .ok (url, st3) => (.ok url, st3)

/-! ## Webhook endpoint -/

/-- The `data.object` of a webhook event, as far as the handler reads it:
`checkout_session.get(\x27customer_email\x27)` yields `None` when absent. -/
structure StripeEventObject where
  customer_email : Option String
deriving DecidableEq

/-- A verified webhook event envelope. -/
structure StripeEvent where
  type : String
  data_object : StripeEventObject
deriving DecidableEq

/-- Outcome of `stripe.Webhook.construct_event(payload, sig_header,
webhook_secret)` (lines 100-102 of `app.py`): the verified event, or a
`ValueError` for a malformed payload, or a
`stripe.error.SignatureVerificationError` for a signature mismatch. -/
inductive ConstructEventResult where
  | ok (event : StripeEvent)
  | valueError (msg : String)
  | signatureError (msg : String)
deriving DecidableEq

/-- Which dispatch branch of the webhook handler ran (lines 111-117 of
`app.py`): the completed-checkout branch reads `customer_email` from the
nested session object; any other type hits the unhandled branch. -/
inductive WebhookAction where
  | completedCheckout (customer_email : Option String)
  | unhandled (type : String)
deriving DecidableEq

/-- Webhook endpoint outcome: the 200 `JSONResponse` with body
`success = true`, or an `HTTPException` with status and detail. -/
inductive WebhookResponse where
  | success
  | httpError (status : ℕ) (detail : String)
deriving DecidableEq

/-- Lines 78-119 of `app.py`: the `POST /webhook` handler, as a function of
the outcome of signature verification on the raw payload.  Returns the
response together with the dispatch branch taken, if any. -/
def webhook (cr : ConstructEventResult) : WebhookResponse × Option WebhookAction :=
  match cr with
  | .valueError m => (.httpError 400 ("Invalid payload: " ++ m), none)
  | .signatureError m => (.httpError 400 ("Invalid signature: " ++ m), none)
  | .ok event =>
    if event.type == "checkout.session.completed" then
      (.success, some (.completedCheckout event.data_object.customer_email))
    else
      (.success, some (.unhandled event.type))

deriving instance DecidableEq for Except

/-! ## Concrete fixtures used by witnesses and counterexamples -/

/-- Sample configuration: a standard price id and a custom product id. -/
def cfgX : Config := ⟨"price_std", "prod_custom"⟩

/-- Provider state with no prices and no injected errors. -/
def stEmpty : StripeState := ⟨[], 0, none, none, none, "https://pay.example/s0", []⟩

/-! ## Claims -/

/-- C1: the claim says the amount in minor units used for the custom flow
equals `floor(P * 100)`, and that price `19.99` yields `unit_amount = 1999`.
The code computes `int(request.price * 100)` in binary64 floating point:
the float nearest to `19.99` is slightly below it, so the product is just
under `1999` and truncation yields `1998`.  This theorem evaluates the
embedded code at the failing input: the amount is `1998`, and the full
handler on an empty provider state creates a price of `1998` minor units
(currency `"eur"`), then a payment-mode session whose url is returned. -/
theorem c1_custom_amount_is_1998_not_1999 :
    amount_in_cents (pyFloat 1999 100) = 1998 ∧
    (1998 : ℤ) ≠ 1999 ∧
    (create_subscription_session cfgX stEmpty ⟨"custom", "a@b.com", pyFloat 1999 100⟩).2.prices =
      [⟨"price_0", 1998, "eur", "prod_custom"⟩] ∧
    (create_subscription_session cfgX stEmpty ⟨"custom", "a@b.com", pyFloat 1999 100⟩).2.sessionsCreated =
      [⟨["card"], [("price_0", 1)], "payment", "a@b.com",
        "http://localhost:8000/success.html", "http://localhost:8000/cancel.html", "a@b.com"⟩] ∧
    (create_subscription_session cfgX stEmpty ⟨"custom", "a@b.com", pyFloat 1999 100⟩).1 =
      .ok "https://pay.example/s0" := by
  decide

/-- C3: a webhook request whose payload is malformed (`ValueError`) or whose
signature does not verify (`SignatureVerificationError`) is answered with a
400 error carrying a detail message, and no dispatch branch runs. -/
theorem c3_webhook_verification_failure_rejected :
    ∀ m : String,
      webhook (.valueError m) = (.httpError 400 ("Invalid payload: " ++ m), none) ∧
      webhook (.signatureError m) = (.httpError 400 ("Invalid signature: " ++ m), none) := by
  intro m
  exact ⟨rfl, rfl⟩

/-- C6: every webhook request that passes signature verification is answered
with the 200 success acknowledgment, whatever the event type is. -/
theorem c6_webhook_verified_always_ok :
    ∀ event : StripeEvent, (webhook (.ok event)).1 = .success := by
  intro event
  cases h : event.type == "checkout.session.completed" <;> simp [webhook, h]

/-- C7: a verified webhook event of type `checkout.session.completed` takes
the completed-checkout branch: `customer_email` is read from the nested
session object (an `Option`, so reading cannot fail), the only effect is
recording it, and the response is the 200 acknowledgment. -/
theorem c7_webhook_completed_checkout (event : StripeEvent)
    (h : event.type = "checkout.session.completed") :
    webhook (.ok event) =
      (.success, some (.completedCheckout event.data_object.customer_email)) := by
  simp [webhook, h]

/-- Witness for C7 at a concrete event. -/
theorem c7_webhook_completed_checkout_witness :
    webhook (.ok ⟨"checkout.session.completed", ⟨some "a@b.com"⟩⟩) =
      (.success, some (.completedCheckout (some "a@b.com"))) :=
  c7_webhook_completed_checkout ⟨"checkout.session.completed", ⟨some "a@b.com"⟩⟩ rfl

/-- C4: a checkout request whose `subscription_type` is neither
`"standard"` nor `"custom"` fails with a 400 error carrying a detail
message, the provider state is returned unchanged, and in particular no
session-creation call is made. -/
theorem c4_invalid_type_rejected (cfg : Config) (st : StripeState)
    (req : SubscriptionRequest)
    (h1 : req.subscription_type ≠ "standard") (h2 : req.subscription_type ≠ "custom") :
    create_subscription_session cfg st req =
      (.httpError 400
        "An error occurred: Invalid subscription type. Must be \x27standard\x27 or \x27custom\x27.",
       st) ∧
    (create_subscription_session cfg st req).2.sessionsCreated = st.sessionsCreated := by
  have hb1 : (req.subscription_type == "standard") = false := beq_eq_false_iff_ne.mpr h1
  have hb2 : (req.subscription_type == "custom") = false := beq_eq_false_iff_ne.mpr h2
  have hmain : create_subscription_session cfg st req =
      (.httpError 400
        "An error occurred: Invalid subscription type. Must be \x27standard\x27 or \x27custom\x27.",
       st) := by
    unfold create_subscription_session resolvePrice
    rw [hb1, hb2]
    simp [errorDetail]
  exact ⟨hmain, by rw [hmain]⟩

/-- Witness for C4 at a concrete request. -/
theorem c4_invalid_type_rejected_witness :
    create_subscription_session cfgX stEmpty ⟨"gold", "a@b.com", pyFloat 1 1⟩ =
      (.httpError 400
        "An error occurred: Invalid subscription type. Must be \x27standard\x27 or \x27custom\x27.",
       stEmpty) ∧
    (create_subscription_session cfgX stEmpty ⟨"gold", "a@b.com", pyFloat 1 1⟩).2.sessionsCreated =
      stEmpty.sessionsCreated :=
  c4_invalid_type_rejected cfgX stEmpty ⟨"gold", "a@b.com", pyFloat 1 1⟩
    (by decide) (by decide)

/-- C5: a `"standard"` request resolves to the statically configured
standard price id with session mode `"subscription"` (shown end to end:
the provider receives exactly those session parameters when session
creation does not fail), and a `"custom"` request that resolves
successfully always resolves with session mode `"payment"`. -/
theorem c5_standard_id_and_modes (cfg : Config) (st : StripeState)
    (req : SubscriptionRequest) :
    (req.subscription_type = "standard" → st.sessionFail = none →
      create_subscription_session cfg st req =
        (.ok st.sessionUrl,
         { st with sessionsCreated :=
             st.sessionsCreated ++ [sessionParamsFor req cfg.standard_price_id "subscription"] })) ∧
    (req.subscription_type = "custom" →
      ∀ pid mode st2, resolvePrice cfg st req = .ok (pid, mode, st2) → mode = "payment") := by
  constructor
  · intro hty hsf
    simp [create_subscription_session, resolvePrice, Session_create, hty, hsf]
  · intro hty pid mode st2 hres
    unfold resolvePrice at hres
    rw [hty] at hres
    rw [show (("custom" : String) == "standard") = false from by decide] at hres
    rw [show (("custom" : String) == "custom") = true from by decide] at hres
    simp only [Bool.false_eq_true, if_false, if_true] at hres
    split at hres
    · exact absurd hres (by simp)
    · split at hres
      · injection hres with h3
        simp only [Prod.mk.injEq] at h3
        exact h3.2.1.symm
      · split at hres
        · exact absurd hres (by simp)
        · injection hres with h3
          simp only [Prod.mk.injEq] at h3
          exact h3.2.1.symm

/-- Witness for C5: a standard request on the empty state, and a custom
resolution on the empty state. -/
theorem c5_standard_id_and_modes_witness :
    create_subscription_session cfgX stEmpty ⟨"standard", "a@b.com", pyFloat 1 1⟩ =
      (.ok stEmpty.sessionUrl,
       { stEmpty with sessionsCreated :=
           stEmpty.sessionsCreated ++
             [sessionParamsFor ⟨"standard", "a@b.com", pyFloat 1 1⟩ cfgX.standard_price_id
               "subscription"] }) ∧
    "payment" = "payment" :=
  ⟨(c5_standard_id_and_modes cfgX stEmpty ⟨"standard", "a@b.com", pyFloat 1 1⟩).1 rfl rfl,
   (c5_standard_id_and_modes cfgX stEmpty ⟨"custom", "a@b.com", pyFloat 1 1⟩).2 rfl
     "price_0" "payment"
     { stEmpty with
         prices := [⟨"price_0", 100, "eur", "prod_custom"⟩],
         nextPriceNum := 1 }
     (by decide)⟩

/-- C8: whenever the price resolution succeeds and the provider does not
fail the session call, the session is created with exactly: card as the
payment method type, one line item with the resolved price id and quantity
1, the resolved mode, the request email as customer email and as metadata,
and the success and cancel urls built from the configured domain; the
response wraps the session url. -/
theorem c8_session_creation_params (cfg : Config) (st : StripeState)
    (req : SubscriptionRequest) (pid mode : String) (st2 : StripeState)
    (hres : resolvePrice cfg st req = .ok (pid, mode, st2))
    (hsf : st2.sessionFail = none) :
    create_subscription_session cfg st req =
      (.ok st2.sessionUrl,
       { st2 with sessionsCreated := st2.sessionsCreated ++
           [⟨["card"], [(pid, 1)], mode, req.user_email,
             DOMAIN ++ "/success.html", DOMAIN ++ "/cancel.html", req.user_email⟩] }) := by
  unfold create_subscription_session Session_create
  rw [hres]
  simp [hsf, sessionParamsFor]

/-- Witness for C8 at a concrete standard request. -/
theorem c8_session_creation_params_witness :
    create_subscription_session cfgX stEmpty ⟨"standard", "u@v.com", pyFloat 1 1⟩ =
      (.ok stEmpty.sessionUrl,
       { stEmpty with sessionsCreated := stEmpty.sessionsCreated ++
           [⟨["card"], [("price_std", 1)], "subscription", "u@v.com",
             DOMAIN ++ "/success.html", DOMAIN ++ "/cancel.html", "u@v.com"⟩] }) :=
  c8_session_creation_params cfgX stEmpty ⟨"standard", "u@v.com", pyFloat 1 1⟩
    "price_std" "subscription" stEmpty (by decide) rfl

/-- Errors of `resolvePrice` always carry the provider state unchanged. -/
theorem resolvePrice_error_state (cfg : Config) (st : StripeState)
    (req : SubscriptionRequest) :
    ∀ e s, resolvePrice cfg st req = .error (e, s) → s = st := by
  intro e s h
  unfold resolvePrice get_existing_price create_new_price Price_list Price_create at h
  split at h
  · simp at h
  · split at h
    · split at h
      · simp only [Except.error.injEq, Prod.mk.injEq] at h
        exact h.2.symm
      · split at h
        · simp at h
        · split at h
          · simp only [Except.error.injEq, Prod.mk.injEq] at h
            exact h.2.symm
          · simp at h
    · simp only [Except.error.injEq, Prod.mk.injEq] at h
      exact h.2.symm

/-- Successful price resolution either reuses an existing price (state
unchanged) or mints exactly one fresh price. -/
theorem resolvePrice_ok_state (cfg : Config) (st : StripeState)
    (req : SubscriptionRequest) :
    ∀ pid mode s, resolvePrice cfg st req = .ok (pid, mode, s) →
      s = st ∨
      s = { st with
              prices := ⟨freshPriceId st.nextPriceNum, amount_in_cents req.price, "eur",
                          cfg.custom_sub_id⟩ :: st.prices,
              nextPriceNum := st.nextPriceNum + 1 } := by
  intro pid mode s h
  unfold resolvePrice at h
  split at h
  · simp only [Except.ok.injEq, Prod.mk.injEq] at h
    exact Or.inl h.2.2.symm
  · split at h
    · cases hg : get_existing_price st cfg.custom_sub_id (amount_in_cents req.price) "eur" with
      | error e => rw [hg] at h; simp at h
      | ok opid =>
        rw [hg] at h
        simp only [] at h
        split at h
        · simp only [Except.ok.injEq, Prod.mk.injEq] at h
          exact Or.inl h.2.2.symm
        · unfold create_new_price Price_create at h
          cases hc : st.createFail with
          | some m => rw [hc] at h; simp at h
          | none =>
            rw [hc] at h
            simp only [Except.ok.injEq, Prod.mk.injEq] at h
            exact Or.inr h.2.2.symm
    · simp at h

/-- C9: every provider error in the checkout path (price lookup, price
creation, or session creation, all carried as `StripeError`) is reported as
a 400 with the provider message, every other exception (`ValueError`) as a
400 with the generic message, and the handler is single-shot: it never
retries, minting at most one price per request. -/
theorem c9_checkout_errors_to_400 (cfg : Config) (st : StripeState)
    (req : SubscriptionRequest) :
    (∀ m s, resolvePrice cfg st req = .error (.stripeError m, s) →
      (create_subscription_session cfg st req).1 =
        .httpError 400 ("Stripe error: " ++ m)) ∧
    (∀ m s, resolvePrice cfg st req = .error (.valueError m, s) →
      (create_subscription_session cfg st req).1 =
        .httpError 400 ("An error occurred: " ++ m)) ∧
    (∀ pid mode s m, resolvePrice cfg st req = .ok (pid, mode, s) →
      s.sessionFail = some m →
      (create_subscription_session cfg st req).1 =
        .httpError 400 ("Stripe error: " ++ m)) ∧
    (create_subscription_session cfg st req).2.nextPriceNum ≤ st.nextPriceNum + 1 := by
  refine ⟨?_, ?_, ?_, ?_⟩
  · intro m s h
    unfold create_subscription_session
    rw [h]
    rfl
  · intro m s h
    unfold create_subscription_session
    rw [h]
    rfl
  · intro pid mode s m h hsf
    unfold create_subscription_session Session_create
    rw [h]
    simp [hsf, errorDetail]
  · cases hr : resolvePrice cfg st req with
    | error es =>
      obtain ⟨e, s⟩ := es
      have hs := resolvePrice_error_state cfg st req e s hr
      unfold create_subscription_session
      rw [hr]
      subst hs
      simp
    | ok r =>
      obtain ⟨pid, mode, s⟩ := r
      have hs := resolvePrice_ok_state cfg st req pid mode s hr
      unfold create_subscription_session Session_create
      rw [hr]
      cases hsf : s.sessionFail with
      | some m =>
        simp only [hsf]
        rcases hs with rfl | rfl
        · simp
        · simp
      | none =>
        simp only [hsf]
        rcases hs with rfl | rfl
        · simp
        · simp

/-- Provider state whose price listing fails with message `"down"`. -/
def stListDown : StripeState := ⟨[], 0, some "down", none, none, "u", []⟩

/-- Provider state whose session creation fails with message `"busy"`. -/
def stSessBusy : StripeState := ⟨[], 0, none, none, some "busy", "u", []⟩

/-- Witness for C9: each error source exercised at a concrete state, and
the single-shot bound at the empty state. -/
theorem c9_checkout_errors_to_400_witness :
    (create_subscription_session cfgX stListDown
        ⟨"custom", "a@b.com", pyFloat 1 1⟩).1 =
      .httpError 400 ("Stripe error: " ++ "down") ∧
    (create_subscription_session cfgX stEmpty ⟨"gold", "a@b.com", pyFloat 1 1⟩).1 =
      .httpError 400
        ("An error occurred: " ++
          "Invalid subscription type. Must be \x27standard\x27 or \x27custom\x27.") ∧
    (create_subscription_session cfgX stSessBusy
        ⟨"standard", "a@b.com", pyFloat 1 1⟩).1 =
      .httpError 400 ("Stripe error: " ++ "busy") ∧
    (create_subscription_session cfgX stEmpty
        ⟨"custom", "a@b.com", pyFloat 1 1⟩).2.nextPriceNum ≤ stEmpty.nextPriceNum + 1 :=
  ⟨(c9_checkout_errors_to_400 cfgX stListDown
      ⟨"custom", "a@b.com", pyFloat 1 1⟩).1 "down" stListDown (by decide),
   (c9_checkout_errors_to_400 cfgX stEmpty ⟨"gold", "a@b.com", pyFloat 1 1⟩).2.1
      "Invalid subscription type. Must be \x27standard\x27 or \x27custom\x27." stEmpty (by decide),
   (c9_checkout_errors_to_400 cfgX stSessBusy
      ⟨"standard", "a@b.com", pyFloat 1 1⟩).2.2.1 "price_std" "subscription" stSessBusy "busy"
      (by decide) rfl,
   (c9_checkout_errors_to_400 cfgX stEmpty ⟨"custom", "a@b.com", pyFloat 1 1⟩).2.2.2⟩

/-- C10: the existing-price lookup lists at most 100 prices of the product
and returns the id of the first listed price whose amount and currency
match; every id it returns comes from that 100-price window, and when no
match occurs inside the window the result is `None` — even if matching
prices exist beyond the window. -/
theorem c10_lookup_first_100_window (st : StripeState) (P : String) (A : ℤ)
    (h : st.listFail = none) :
    get_existing_price st P A "eur" =
      .ok ((((st.prices.filter (fun p => p.product == P)).take 100).find? (fun p =>
          p.unit_amount == A && p.currency == "eur")).map (fun p => p.id)) ∧
    (∀ pid, get_existing_price st P A "eur" = .ok (some pid) →
      ∃ p ∈ (st.prices.filter (fun p => p.product == P)).take 100,
        p.id = pid ∧ p.unit_amount = A ∧ p.currency = "eur") ∧
    ((((st.prices.filter (fun p => p.product == P)).take 100).find? (fun p =>
        p.unit_amount == A && p.currency == "eur")) = none →
      get_existing_price st P A "eur" = .ok none) := by
  have hbase : get_existing_price st P A "eur" =
      .ok ((((st.prices.filter (fun p => p.product == P)).take 100).find? (fun p =>
          p.unit_amount == A && p.currency == "eur")).map (fun p => p.id)) := by
    unfold get_existing_price Price_list
    rw [h]
  refine ⟨hbase, ?_, ?_⟩
  · intro pid hpid
    rw [hbase] at hpid
    simp only [Except.ok.injEq] at hpid
    obtain ⟨p, hfind, hid⟩ := Option.map_eq_some'.mp hpid
    have hp := List.find?_some hfind
    simp only [Bool.and_eq_true, beq_iff_eq] at hp
    exact ⟨p, List.mem_of_find?_eq_some hfind, hid, hp.1, hp.2⟩
  · intro hnone
    rw [hbase, hnone]
    rfl

/-- Provider state used by the C10 witness: one matching price listed. -/
def stW : StripeState := ⟨[⟨"p1", 500, "eur", "P"⟩], 0, none, none, none, "u", []⟩

/-- Witness for C10: on a state listing one matching price, the lookup
returns its id. -/
theorem c10_lookup_first_100_window_witness :
    get_existing_price stW "P" 500 "eur" = .ok (some "p1") := by
  have h := (c10_lookup_first_100_window stW "P" 500 rfl).1
  rw [h]
  rfl

/-- Freshly minted price ids are never the empty string. -/
theorem freshPriceId_isEmpty (n : ℕ) : (freshPriceId n).isEmpty = false := by
  have hne : freshPriceId n ≠ "" := by
    unfold freshPriceId
    intro hcontra
    have h2 := congrArg String.length hcontra
    rw [String.length_append] at h2
    rw [show ("price_" : String).length = 6 from by decide] at h2
    rw [show ("" : String).length = 0 from by decide] at h2
    omega
  cases he : (freshPriceId n).isEmpty
  · rfl
  · exact absurd ((String.isEmpty_iff _).mp he) hne

/-- Reuse path of the custom flow: when the 100-price lookup window holds a
first match with a non-empty id, resolution returns that id and leaves the
provider state unchanged. -/
theorem resolvePrice_custom_reuse (cfg : Config) (st : StripeState)
    (req : SubscriptionRequest) (p : StripePrice)
    (hty : req.subscription_type = "custom") (hl : st.listFail = none)
    (hfind : ((st.prices.filter (fun q => q.product == cfg.custom_sub_id)).take 100).find?
        (fun q => q.unit_amount == amount_in_cents req.price && q.currency == "eur") = some p)
    (hid : p.id.isEmpty = false) :
    resolvePrice cfg st req = .ok (p.id, "payment", st) := by
  unfold resolvePrice get_existing_price Price_list
  rw [hty]
  rw [show (("custom" : String) == "standard") = false from by decide]
  rw [show (("custom" : String) == "custom") = true from by decide]
  rw [hl]
  simp only [Bool.false_eq_true, if_false, if_true, hfind, Option.map_some',
    pyStrOptTruthy, hid, Bool.not_false, Option.getD_some]

/-- Creation path of the custom flow: when the lookup yields nothing truthy
and price creation is available, resolution mints one fresh price, listed
first from then on. -/
theorem resolvePrice_custom_create (cfg : Config) (st : StripeState)
    (req : SubscriptionRequest)
    (hty : req.subscription_type = "custom") (hl : st.listFail = none)
    (hc : st.createFail = none)
    (hfalsy : pyStrOptTruthy
        (((((st.prices.filter (fun q => q.product == cfg.custom_sub_id)).take 100).find?
            (fun q => q.unit_amount == amount_in_cents req.price && q.currency == "eur"))).map
          (fun q => q.id)) = false) :
    resolvePrice cfg st req =
      .ok (freshPriceId st.nextPriceNum, "payment",
        { st with
            prices := ⟨freshPriceId st.nextPriceNum, amount_in_cents req.price, "eur",
                        cfg.custom_sub_id⟩ :: st.prices,
            nextPriceNum := st.nextPriceNum + 1 }) := by
  unfold resolvePrice get_existing_price create_new_price Price_list Price_create
  rw [hty]
  rw [show (("custom" : String) == "standard") = false from by decide]
  rw [show (("custom" : String) == "custom") = true from by decide]
  rw [hl, hc]
  simp only [Bool.false_eq_true, if_false, if_true, hfalsy]

/-- Provider state refuting C2 as stated: 100 non-matching prices are
listed before a price that matches the requested tuple, so the match sits
beyond the lookup window. -/
def stC2 : StripeState :=
  ⟨List.replicate 100 ⟨"price_old", 5, "eur", "prod_custom"⟩ ++
     [⟨"price_match", 1200, "eur", "prod_custom"⟩], 7, none, none, none, "u", []⟩

/-- Counterexample to C2 as stated: a price with the exact
product/amount/currency tuple exists among the provider prices for the
product, yet the custom flow creates a new price, after which two
equivalent prices exist for the same amount. -/
theorem c2_dedup_beyond_window_counterexample :
    (stC2.prices.any (fun p =>
        p.product == "prod_custom" && p.unit_amount == 1200 && p.currency == "eur")) = true ∧
    amount_in_cents (pyFloat 12 1) = 1200 ∧
    (create_subscription_session cfgX stC2 ⟨"custom", "a@b.com", pyFloat 12 1⟩).2.nextPriceNum
      = stC2.nextPriceNum + 1 ∧
    ((create_subscription_session cfgX stC2 ⟨"custom", "a@b.com", pyFloat 12 1⟩).2.prices.filter
        (fun p => p.product == "prod_custom" && p.unit_amount == 1200 && p.currency == "eur")).length
      = 2 := by
  decide

/-- C2, amended: the dedup key is only checked inside the 100-price lookup
window (first conjunct: a first window match with the provider's non-empty
ids is reused with no state change), and the flow is idempotent: a second
invocation with the same amount returns the same price id and leaves the
provider state unchanged, so no second equivalent price is ever minted
(second conjunct). -/
theorem c2_custom_dedup_window_idempotent :
    (∀ (cfg : Config) (st : StripeState) (req : SubscriptionRequest) (p : StripePrice),
      st.listFail = none →
      (∀ q ∈ st.prices, q.id ≠ "") →
      req.subscription_type = "custom" →
      ((st.prices.filter (fun q => q.product == cfg.custom_sub_id)).take 100).find?
          (fun q => q.unit_amount == amount_in_cents req.price && q.currency == "eur") = some p →
      resolvePrice cfg st req = .ok (p.id, "payment", st)) ∧
    (∀ (cfg : Config) (st : StripeState) (req : SubscriptionRequest)
        (pid mode : String) (st2 : StripeState),
      st.listFail = none → st.createFail = none →
      req.subscription_type = "custom" →
      resolvePrice cfg st req = .ok (pid, mode, st2) →
      resolvePrice cfg st2 req = .ok (pid, mode, st2)) := by
  constructor
  · intro cfg st req p hl hids hty hfind
    have hp : p ∈ st.prices :=
      List.mem_of_mem_filter (List.take_subset _ _ (List.mem_of_find?_eq_some hfind))
    have hid : p.id.isEmpty = false := by
      cases he : p.id.isEmpty
      · rfl
      · exact absurd ((String.isEmpty_iff _).mp he) (hids p hp)
    exact resolvePrice_custom_reuse cfg st req p hty hl hfind hid
  · intro cfg st req pid mode st2 hl hc hty hres
    cases htr : pyStrOptTruthy
        (((((st.prices.filter (fun q => q.product == cfg.custom_sub_id)).take 100).find?
            (fun q => q.unit_amount == amount_in_cents req.price && q.currency == "eur"))).map
          (fun q => q.id)) with
    | true =>
      cases hf : ((st.prices.filter (fun q => q.product == cfg.custom_sub_id)).take 100).find?
          (fun q => q.unit_amount == amount_in_cents req.price && q.currency == "eur") with
      | none => rw [hf] at htr; simp [pyStrOptTruthy] at htr
      | some p =>
        rw [hf] at htr
        have hid : p.id.isEmpty = false := by
          cases he : p.id.isEmpty
          · rfl
          · simp [pyStrOptTruthy, he] at htr
        have h1 := resolvePrice_custom_reuse cfg st req p hty hl hf hid
        rw [h1] at hres
        simp only [Except.ok.injEq, Prod.mk.injEq] at hres
        obtain ⟨hpid, hmode, hst⟩ := hres
        subst hpid
        subst hmode
        subst hst
        exact h1
    | false =>
      have h1 := resolvePrice_custom_create cfg st req hty hl hc htr
      rw [h1] at hres
      simp only [Except.ok.injEq, Prod.mk.injEq] at hres
      obtain ⟨hpid, hmode, hst⟩ := hres
      subst hpid
      subst hmode
      subst hst
      have hfind2 : ((((⟨freshPriceId st.nextPriceNum, amount_in_cents req.price, "eur",
            cfg.custom_sub_id⟩ : StripePrice) :: st.prices).filter
              (fun q => q.product == cfg.custom_sub_id)).take 100).find?
          (fun q => q.unit_amount == amount_in_cents req.price && q.currency == "eur") =
            some ⟨freshPriceId st.nextPriceNum, amount_in_cents req.price, "eur",
              cfg.custom_sub_id⟩ := by
        rw [List.filter_cons_of_pos (by simp)]
        exact List.find?_cons_of_pos _ (by simp)
      exact resolvePrice_custom_reuse cfg
        { st with
            prices := ⟨freshPriceId st.nextPriceNum, amount_in_cents req.price, "eur",
                        cfg.custom_sub_id⟩ :: st.prices,
            nextPriceNum := st.nextPriceNum + 1 }
        req ⟨freshPriceId st.nextPriceNum, amount_in_cents req.price, "eur", cfg.custom_sub_id⟩
        hty hl hfind2 (freshPriceId_isEmpty st.nextPriceNum)

/-- Provider state for the C2 witness reuse case: one matching price. -/
def stW2 : StripeState := ⟨[⟨"pm", 100, "eur", "prod_custom"⟩], 3, none, none, none, "u", []⟩

/-- Provider state after the first custom resolution on the empty state. -/
def stF1 : StripeState :=
  ⟨[⟨"price_0", 100, "eur", "prod_custom"⟩], 1, none, none, none, "https://pay.example/s0", []⟩

/-- Witness for the amended C2: the window match is reused on a concrete
state, and a second invocation after a concrete creation returns the same
id with no state change. -/
theorem c2_custom_dedup_window_idempotent_witness :
    resolvePrice cfgX stW2 ⟨"custom", "a@b.com", pyFloat 1 1⟩ = .ok ("pm", "payment", stW2) ∧
    resolvePrice cfgX stF1 ⟨"custom", "a@b.com", pyFloat 1 1⟩ = .ok ("price_0", "payment", stF1) :=
  ⟨c2_custom_dedup_window_idempotent.1 cfgX stW2 ⟨"custom", "a@b.com", pyFloat 1 1⟩
      ⟨"pm", 100, "eur", "prod_custom"⟩ rfl
      (by intro q hq; simp [stW2] at hq; subst hq; decide) rfl (by decide),
   c2_custom_dedup_window_idempotent.2 cfgX stEmpty ⟨"custom", "a@b.com", pyFloat 1 1⟩
      "price_0" "payment" stF1 rfl rfl rfl (by decide)⟩

end StripeApi
